import Mathlib

/-!
Verification development for the urban-rivals-oauth client (src/UROAuth.js).

The JavaScript class UROAuth is shallowly embedded: its mutable fields become
an explicit state record, each method becomes a function from the state and the
transport outcome to a settled value and a successor state, JS exceptions are
`Except`, and a JS promise settlement is the `Settle` type below.  `JSON.parse`
and `JSON.stringify` are modelled by an executable parser and serializer over a
`Json` value type, and the WHATWG `URLSearchParams` serialization used by
`getAuthorizeUrl` is modelled byte by byte.
-/

/-! ## JSON values (the data JSON.parse produces / JSON.stringify consumes) -/

/-- JSON value.  Numbers keep their raw numeral text: no claim depends on
IEEE-754 numeric semantics, only on (de)serialization plumbing. -/
inductive Json where
  | null
  | bool (b : Bool)
  | num (raw : String)
  | str (s : String)
  | arr (items : List Json)
  | obj (fields : List (String × Json))

/-- Property access `v[k]` on a parsed JSON value, as used by `query` on the
parsed response (source line 210).  JS property access is modelled for object
results; the call names used are non-numeric dotted identifiers, for which
access on strings/arrays also yields `undefined` (`none`). -/
def Json.index (v : Json) (k : String) : Option Json :=
  match v with
  | .obj fs => (fs.find? (fun kv => kv.1 == k)).map (fun kv => kv.2)
  | _ => none

/-! ## JSON.stringify -/

/-- Lowercase hex digit, as used by JSON.stringify for control-character
escapes. -/
def hexDigitLower (n : Nat) : Char :=
  if n < 10 then Char.ofNat (48 + n) else Char.ofNat (87 + n)

/-- Escape one character inside a JSON string literal, per JSON.stringify. -/
def quoteChar (c : Char) : String :=
  if c = '\"' then "\\\""
  else if c = '\\' then "\\\\"
  else if c.toNat = 8 then "\\b"
  else if c.toNat = 9 then "\\t"
  else if c.toNat = 10 then "\\n"
  else if c.toNat = 12 then "\\f"
  else if c.toNat = 13 then "\\r"
  else if c.toNat < 32 then
    "\\u00" ++ String.singleton (hexDigitLower (c.toNat / 16)) ++
      String.singleton (hexDigitLower (c.toNat % 16))
  else String.singleton c

/-- Quote a string as a JSON string literal. -/
def quoteString (s : String) : String :=
  "\"" ++ String.join (s.data.map quoteChar) ++ "\""

mutual

/-- JSON.stringify: serialize a JSON value (no indentation, insertion order of
object keys preserved, exactly as JS). -/
def Json.stringify : Json → String
  | .null => "null"
  | .bool true => "true"
  | .bool false => "false"
  | .num raw => raw
  | .str s => quoteString s
  | .arr items => "[" ++ stringifyItems items ++ "]"
  | .obj fields => "\x7b" ++ stringifyFields fields ++ "\x7d"

/-- Comma-separated serialization of array elements. -/
def stringifyItems : List Json → String
  | [] => ""
  | [v] => Json.stringify v
  | v :: rest => Json.stringify v ++ "," ++ stringifyItems rest

/-- Comma-separated serialization of object members. -/
def stringifyFields : List (String × Json) → String
  | [] => ""
  | [kv] => quoteString kv.1 ++ ":" ++ Json.stringify kv.2
  | kv :: rest => quoteString kv.1 ++ ":" ++ Json.stringify kv.2 ++ "," ++ stringifyFields rest

end

/-! ## JSON.parse -/

/-- JSON whitespace. -/
def isJsonWs (c : Char) : Bool :=
  c == ' ' || c == '\t' || c == '\n' || c == '\r'

/-- Skip JSON whitespace. -/
def skipWs : List Char → List Char
  | [] => []
  | c :: rest => if isJsonWs c then skipWs rest else c :: rest

/-- Hex digit value, for string u-escapes. -/
def hexVal (c : Char) : Option Nat :=
  if c.isDigit then some (c.toNat - 48)
  else if 'A' ≤ c ∧ c ≤ 'F' then some (c.toNat - 55)
  else if 'a' ≤ c ∧ c ≤ 'f' then some (c.toNat - 87)
  else none

/-- Single-character JSON string escapes. -/
def simpleEscape (c : Char) : Option Char :=
  if c = '\"' then some '\"'
  else if c = '\\' then some '\\'
  else if c = '/' then some '/'
  else if c = 'b' then some (Char.ofNat 8)
  else if c = 'f' then some (Char.ofNat 12)
  else if c = 'n' then some (Char.ofNat 10)
  else if c = 'r' then some (Char.ofNat 13)
  else if c = 't' then some (Char.ofNat 9)
  else none

/-- Parse the characters of a JSON string after the opening quote; returns the
decoded characters and the remaining input. -/
def parseStringChars : List Char → Except Unit (List Char × List Char)
  | [] => .error ()
  | '\"' :: rest => .ok ([], rest)
  | '\\' :: 'u' :: a :: b :: c :: d :: rest =>
    match hexVal a, hexVal b, hexVal c, hexVal d with
    | some ha, some hb, some hc, some hd =>
      (parseStringChars rest).map
        (fun p => (Char.ofNat (((ha * 16 + hb) * 16 + hc) * 16 + hd) :: p.1, p.2))
    | _, _, _, _ => .error ()
  | '\\' :: [] => .error ()
  | '\\' :: e :: rest =>
    match simpleEscape e with
    | some c => (parseStringChars rest).map (fun p => (c :: p.1, p.2))
    | none => .error ()
  | c :: rest =>
    if c.toNat < 32 then .error ()
    else (parseStringChars rest).map (fun p => (c :: p.1, p.2))

/-- Longest digit span of the input. -/
def digitSpan : List Char → List Char × List Char
  | [] => ([], [])
  | c :: rest =>
    if c.isDigit then
      let p := digitSpan rest
      (c :: p.1, p.2)
    else ([], c :: rest)

/-- Parse the optional fraction and exponent of a JSON number, given the
already-parsed integer part. -/
def parseFracExp (intPart : String) (cs : List Char) : Except Unit (String × List Char) :=
  let fracStep : Except Unit (String × List Char) :=
    match cs with
    | '.' :: r =>
      match digitSpan r with
      | ([], _) => .error ()
      | (ds, r2) => .ok (intPart ++ "." ++ String.mk ds, r2)
    | _ => .ok (intPart, cs)
  match fracStep with
  | .error _ => .error ()
  | .ok (s1, cs2) =>
    match cs2 with
    | c :: r =>
      if c = 'e' ∨ c = 'E' then
        let signAndRest : String × List Char :=
          match r with
          | '+' :: rr => ("+", rr)
          | '-' :: rr => ("-", rr)
          | _ => ("", r)
        match digitSpan signAndRest.2 with
        | ([], _) => .error ()
        | (ds, r3) => .ok (s1 ++ String.singleton c ++ signAndRest.1 ++ String.mk ds, r3)
      else .ok (s1, cs2)
    | [] => .ok (s1, cs2)

/-- Parse a JSON number (raw text kept). -/
def parseNumber (cs : List Char) : Except Unit (String × List Char) :=
  let signAndRest : String × List Char :=
    match cs with
    | '-' :: r => ("-", r)
    | _ => ("", cs)
  match signAndRest.2 with
  | c :: r =>
    if c = '0' then parseFracExp (signAndRest.1 ++ "0") r
    else if c.isDigit then
      let p := digitSpan r
      parseFracExp (signAndRest.1 ++ String.mk (c :: p.1)) p.2
    else .error ()
  | [] => .error ()

/-- Insert a member into an object under construction with JS object
semantics: a duplicate key keeps its first position and takes the last value,
as JSON.parse does. -/
def setField (fs : List (String × Json)) (k : String) (v : Json) : List (String × Json) :=
  match fs with
  | [] => [(k, v)]
  | (k2, v2) :: rest => if k2 = k then (k2, v) :: rest else (k2, v2) :: setField rest k v

/-- Opening brace character. -/
def lcurly : Char := Char.ofNat 123

/-- Closing brace character. -/
def rcurly : Char := Char.ofNat 125

mutual

/-- Fuel-based recursive-descent parser for one JSON value.  The fuel only
bounds nesting of the grammar; `JSONparse` below supplies enough fuel that no
valid input ever exhausts it. -/
def parseValue : Nat → List Char → Except Unit (Json × List Char)
  | 0, _ => .error ()
  | fuel + 1, cs =>
    match skipWs cs with
    | [] => .error ()
    | c :: rest =>
      if c = 'n' then
        match rest with
        | 'u' :: 'l' :: 'l' :: r => .ok (.null, r)
        | _ => .error ()
      else if c = 't' then
        match rest with
        | 'r' :: 'u' :: 'e' :: r => .ok (.bool true, r)
        | _ => .error ()
      else if c = 'f' then
        match rest with
        | 'a' :: 'l' :: 's' :: 'e' :: r => .ok (.bool false, r)
        | _ => .error ()
      else if c = '\"' then
        (parseStringChars rest).map (fun p => (.str (String.mk p.1), p.2))
      else if c = '[' then
        match skipWs rest with
        | ']' :: r => .ok (.arr [], r)
        | cs2 => (parseItems fuel cs2).map (fun p => (.arr p.1, p.2))
      else if c = lcurly then
        match skipWs rest with
        | [] => .error ()
        | c2 :: r =>
          if c2 = rcurly then .ok (.obj [], r)
          else (parseMembers fuel [] (c2 :: r)).map (fun p => (.obj p.1, p.2))
      else if c = '-' ∨ c.isDigit then
        (parseNumber (c :: rest)).map (fun p => (.num p.1, p.2))
      else .error ()

/-- Parse the elements of a non-empty JSON array (after the opening bracket). -/
def parseItems : Nat → List Char → Except Unit (List Json × List Char)
  | 0, _ => .error ()
  | fuel + 1, cs =>
    match parseValue fuel cs with
    | .error _ => .error ()
    | .ok (v, rest) =>
      match skipWs rest with
      | ',' :: r => (parseItems fuel r).map (fun p => (v :: p.1, p.2))
      | ']' :: r => .ok ([v], r)
      | _ => .error ()

/-- Parse the members of a non-empty JSON object (after the opening brace),
accumulating left to right with `setField`. -/
def parseMembers : Nat → List (String × Json) → List Char →
    Except Unit (List (String × Json) × List Char)
  | 0, _, _ => .error ()
  | fuel + 1, acc, cs =>
    match skipWs cs with
    | [] => .error ()
    | c :: rest =>
      if c = '\"' then
        match parseStringChars rest with
        | .error _ => .error ()
        | .ok (keyChars, rest2) =>
          match skipWs rest2 with
          | ':' :: rest3 =>
            match parseValue fuel rest3 with
            | .error _ => .error ()
            | .ok (v, rest4) =>
              let acc2 := setField acc (String.mk keyChars) v
              match skipWs rest4 with
              | [] => .error ()
              | c2 :: r =>
                if c2 = ',' then parseMembers fuel acc2 r
                else if c2 = rcurly then .ok (acc2, r)
                else .error ()
          | _ => .error ()
      else .error ()

end

/-! ## JS errors and promise settlement -/

/-- JS error values relevant here: the SyntaxError thrown by JSON.parse, and
the (opaque) error object the underlying oauth transport passes to its
callback. -/
inductive JsError where
  | syntaxError
  | transportError (info : String)
deriving DecidableEq, Repr

/-- JSON.parse: parse a whole string as one JSON value (surrounding
whitespace allowed, nothing trailing); a failure is the thrown SyntaxError. -/
def JSONparse (s : String) : Except JsError Json :=
  match parseValue (2 * s.length + 16) s.data with
  | .error _ => .error .syntaxError
  | .ok (v, rest) => if (skipWs rest).isEmpty then .ok v else .error .syntaxError

/-- How the executor callback of a `new Promise` settles it. -/
inductive PromiseSettle (α ε : Type) where
  | resolved (a : α)
  | rejected (e : ε)

/-- Observable outcome of a promise-returning operation.  `thrown` is an
exception raised inside the transport callback: it escapes outside the
promise, which then never settles — distinct from a rejection delivered to
the caller. -/
inductive Settle (α ε : Type) where
  | resolved (a : α)
  | rejected (e : ε)
  | thrown (ex : ε)
deriving DecidableEq

/-- Run a transport callback: if the callback body throws, the exception
escapes and the promise stays pending; otherwise the promise settles as the
callback chose. -/
def settleOfCallback {α ε : Type} : Except ε (PromiseSettle α ε) → Settle α ε
  | .ok (.resolved a) => .resolved a
  | .ok (.rejected e) => .rejected e
  | .error ex => .thrown ex

/-! ## Client state (the mutable fields of a UROAuth instance) -/

/-- Value of a token-holding instance field.  The constructor initializes both
`this.requestToken` and `this.accessToken` to the empty object (source lines
104, 110), whose `token`/`secret` property reads give `undefined`; a populated
field holds a `\x7btoken, secret\x7d` object. -/
inductive TokenSlot where
  | empty
  | pair (tok sec : String)
deriving DecidableEq, Repr

/-- Read of the `token` property (`none` = `undefined`). -/
def TokenSlot.token : TokenSlot → Option String
  | .empty => none
  | .pair t _ => some t

/-- Read of the `secret` property (`none` = `undefined`). -/
def TokenSlot.secret : TokenSlot → Option String
  | .empty => none
  | .pair _ s => some s

/-- The instance fields of a UROAuth object.  `token` models `this.token`,
which `getAccessToken` reads (source line 158) although no code in the class
ever assigns it: the constructor leaves it undefined (`none`) and no modelled
operation sets it. -/
structure UROAuthState where
  requestToken : TokenSlot
  accessToken : TokenSlot
  token : Option TokenSlot
deriving DecidableEq, Repr

/-- State right after the constructor ran (source lines 104, 110). -/
def initialState : UROAuthState :=
  { requestToken := TokenSlot.empty, accessToken := TokenSlot.empty, token := none }

/-! ## Fixed endpoints -/

/-- Source line 67. -/
def API_URL : String := "https://www.urban-rivals.com/api"

/-- Source line 74. -/
def AUTHORIZE_URL : String := API_URL ++ "/auth/authorize.php"

/-! ## Token handshake operations -/

/-- Outcome the underlying oauth transport delivers to a token-endpoint
callback: an error object, or a token and token-secret string. -/
inductive ExchangeResult where
  | err (info : String)
  | ok (tok sec : String)

/-- getRequestToken (source lines 117-136): on error rejects with the
transport error; on success stores the pair in `this.requestToken` and
resolves with that same object. -/
def getRequestTokenStep (st : UROAuthState) (res : ExchangeResult) :
    Settle (Option TokenSlot) JsError × UROAuthState :=
  match res with
  | .err info => (.rejected (.transportError info), st)
  | .ok t s =>
    (.resolved (some (TokenSlot.pair t s)), { st with requestToken := TokenSlot.pair t s })

/-- The explicit argument of getAccessToken: omitted (defaulting to
`this.requestToken`), or an object with the given own `token`/`secret` fields
and, possibly, an own `requestToken` property holding another token object
(source line 144 checks `hasOwnProperty` for exactly that). -/
inductive AccessTokenArg where
  | omitted
  | obj (own : TokenSlot) (requestTokenProp : Option TokenSlot)

/-- The unwrapping at source lines 143-146: the defaulted `this.requestToken`
is a plain token object with no own `requestToken` property, so the
`hasOwnProperty` check only fires for an explicitly passed wrapper object. -/
def AccessTokenArg.resolve (arg : AccessTokenArg) (st : UROAuthState) : TokenSlot :=
  match arg with
  | .omitted => st.requestToken
  | .obj _ (some inner) => inner
  | .obj own none => own

/-- The `(requestToken.token, requestToken.secret)` pair getAccessToken hands
to the underlying `getOAuthAccessToken` call (source line 148). -/
def getAccessTokenCredentials (st : UROAuthState) (arg : AccessTokenArg) :
    Option String × Option String :=
  ((arg.resolve st).token, (arg.resolve st).secret)

/-- getAccessToken (source lines 147-161): on error rejects; on success
assigns the fresh pair to `this.accessToken` but resolves `this.token` — a
field nothing ever assigns. -/
def getAccessTokenStep (st : UROAuthState) (arg : AccessTokenArg) (res : ExchangeResult) :
    Settle (Option TokenSlot) JsError × UROAuthState :=
  match res with
  | .err info => (.rejected (.transportError info), st)
  | .ok a s => (.resolved st.token, { st with accessToken := TokenSlot.pair a s })

/-! ## Batch queries -/

/-- One argument of `multipleQueries` before defaulting: an object whose
`params`, `contextFilter`, `itemsFilter` properties may be absent
(`none` = the property is undefined, so the destructuring default fires). -/
structure QuerySpec where
  call : String
  params : Option (List (String × Json)) := none
  contextFilter : Option (List String) := none
  itemsFilter : Option (List String) := none

/-- The arrow function at source lines 174-179: destructure with defaults and
rebuild the wire object with keys in the order call, params, contextFilter,
itemsFilter. -/
def mapQuery (q : QuerySpec) : Json :=
  Json.obj [("call", Json.str q.call),
            ("params", Json.obj (q.params.getD [])),
            ("contextFilter", Json.arr ((q.contextFilter.getD []).map Json.str)),
            ("itemsFilter", Json.arr ((q.itemsFilter.getD []).map Json.str))]

/-- `queriesToDo` (source line 174). -/
def queriesToDo (queries : List QuerySpec) : List Json :=
  queries.map mapQuery

/-- The arguments of one `this.post(...)` call (source lines 183-185), in
source order: url, oauth token, oauth secret, body fields, content type. -/
structure PostRequest where
  url : String
  oauthToken : Option String
  oauthSecret : Option String
  body : List (String × String)
  contentType : String
deriving DecidableEq, Repr

/-- The POST that `multipleQueries` unconditionally builds and sends (source
lines 181-185): one body field `request` holding the JSON-encoded query array,
signed with whatever `this.accessToken` currently holds. -/
def multipleQueriesRequest (st : UROAuthState) (queries : List QuerySpec) : PostRequest :=
  { url := API_URL,
    oauthToken := st.accessToken.token,
    oauthSecret := st.accessToken.secret,
    body := [("request", Json.stringify (Json.arr (queriesToDo queries)))],
    contentType := "application/x-www-form-urlencoded" }

/-- Outcome the transport delivers to the post callback: an error object, or
a response body string. -/
inductive TransportResult where
  | err (info : String)
  | ok (body : String)

/-- The callback at source lines 185-191, with JS exceptions as `Except`: an
error rejects; otherwise `resolve(JSON.parse(response))`, where a JSON.parse
failure throws inside the callback. -/
def multipleQueriesCallback (res : TransportResult) :
    Except JsError (PromiseSettle Json JsError) :=
  match res with
  | .err info => .ok (.rejected (.transportError info))
  | .ok body =>
    match JSONparse body with
    | .ok v => .ok (.resolved v)
    | .error e => .error e

/-- multipleQueries (source lines 173-193) as a step on the instance state:
the promise outcome, and the instance fields after the call (the method reads
`this.accessToken` but assigns no field). -/
def multipleQueriesStep (st : UROAuthState) (queries : List QuerySpec)
    (res : TransportResult) : Settle Json JsError × UROAuthState :=
  (settleOfCallback (multipleQueriesCallback res), st)

/-- Filters argument of `query` before defaulting. -/
structure QueryFilters where
  itemsFilter : Option (List String) := none
  contextFilter : Option (List String) := none

/-- The one-element QuerySpec `query` passes to `multipleQueries` (source
lines 204-210): after `query`'s own parameter defaulting, every property of
the object literal is present. -/
def querySpecOf (call : String) (params : Option (List (String × Json)))
    (filters : Option QueryFilters) : QuerySpec :=
  let f := filters.getD ⟨none, none⟩
  { call := call,
    params := some (params.getD []),
    contextFilter := some (f.contextFilter.getD []),
    itemsFilter := some (f.itemsFilter.getD []) }

/-- The POST built by `query` (via `multipleQueries`). -/
def queryRequest (st : UROAuthState) (call : String) (params : Option (List (String × Json)))
    (filters : Option QueryFilters) : PostRequest :=
  multipleQueriesRequest st [querySpecOf call params filters]

/-- query (source lines 204-211): await the one-element batch, then index the
resolved object by the call name; a rejection propagates, and an exception
that escaped the transport callback leaves the async promise pending too. -/
def queryStep (st : UROAuthState) (call : String) (params : Option (List (String × Json)))
    (filters : Option QueryFilters) (res : TransportResult) :
    Settle (Option Json) JsError × UROAuthState :=
  match multipleQueriesStep st [querySpecOf call params filters] res with
  | (.resolved v, st2) => (.resolved (v.index call), st2)
  | (.rejected e, st2) => (.rejected e, st2)
  | (.thrown ex, st2) => (.thrown ex, st2)

/-! ## Authorize URL -/

/-- Uppercase hex digit, as used by URLSearchParams percent-encoding. -/
def hexDigitUpper (n : Nat) : Char :=
  if n < 10 then Char.ofNat (48 + n) else Char.ofNat (55 + n)

/-- UTF-8 bytes of one character. -/
def utf8Bytes (c : Char) : List Nat :=
  let n := c.toNat
  if n < 128 then [n]
  else if n < 2048 then [192 + n / 64, 128 + n % 64]
  else if n < 65536 then [224 + n / 4096, 128 + (n / 64) % 64, 128 + n % 64]
  else [240 + n / 262144, 128 + (n / 4096) % 64, 128 + (n / 64) % 64, 128 + n % 64]

/-- Bytes the application/x-www-form-urlencoded serializer leaves unescaped:
ASCII alphanumerics and `*` `-` `.` `_`. -/
def isFormSafeByte (n : Nat) : Bool :=
  (48 ≤ n && n ≤ 57) || (65 ≤ n && n ≤ 90) || (97 ≤ n && n ≤ 122) ||
    n == 42 || n == 45 || n == 46 || n == 95

/-- Encode one byte per the form-urlencoded serializer: space becomes `+`,
safe bytes stay, everything else is percent-encoded in uppercase hex. -/
def formEncodeByte (n : Nat) : String :=
  if n = 32 then "+"
  else if isFormSafeByte n then String.singleton (Char.ofNat n)
  else "%" ++ String.singleton (hexDigitUpper (n / 16)) ++
    String.singleton (hexDigitUpper (n % 16))

/-- The WHATWG form-urlencoded escaping URLSearchParams applies to each key
and value. -/
def formUrlEncode (s : String) : String :=
  String.join (((s.data.map utf8Bytes).flatten).map formEncodeByte)

/-- URLSearchParams serialization: `key=value` pairs joined with `&`, each
side form-urlencoded. -/
def serializeSearchParams : List (String × String) → String
  | [] => ""
  | [p] => formUrlEncode p.1 ++ "=" ++ formUrlEncode p.2
  | p :: rest =>
    formUrlEncode p.1 ++ "=" ++ formUrlEncode p.2 ++ "&" ++ serializeSearchParams rest

/-- `url.toString()` for a URL whose base carries no query of its own (the
fixed authorize URL): the serialized search params are appended after `?`
when any exist. -/
def urlToString (base : String) (params : List (String × String)) : String :=
  if params.isEmpty then base else base ++ "?" ++ serializeSearchParams params

/-- JS ToString coercion applied by `searchParams.set` to its value
(`undefined` stringifies to "undefined"). -/
def jsToString (v : Option String) : String :=
  match v with
  | some s => s
  | none => "undefined"

/-- getAuthorizeUrl (source lines 219-227): set `oauth_token` from the stored
request token, add `oauth_callback` only when the argument is truthy (a
non-empty string), serialize. -/
def getAuthorizeUrl (st : UROAuthState) (callbackUrl : String) : String :=
  let ps := [("oauth_token", jsToString st.requestToken.token)]
  let ps2 := if callbackUrl = "" then ps else ps ++ [("oauth_callback", callbackUrl)]
  urlToString AUTHORIZE_URL ps2

/-! ## Proxy client -/

/-- The POST produced through the proxy client: member access
`proxyClient[group][method]` yields `this.query.bind(this, group ++ "." ++
method)` (source line 237), so invoking it builds exactly the query request
for the dotted call name. -/
def proxyClientCallRequest (st : UROAuthState) (callGroup callName : String)
    (params : Option (List (String × Json))) (filters : Option QueryFilters) : PostRequest :=
  queryRequest st (callGroup ++ "." ++ callName) params filters

/-- The outcome and state step produced through the proxy client (source
lines 233-250): the bound `query` applied to the dotted call name. -/
def proxyClientCallStep (st : UROAuthState) (callGroup callName : String)
    (params : Option (List (String × Json))) (filters : Option QueryFilters)
    (res : TransportResult) : Settle (Option Json) JsError × UROAuthState :=
  queryStep st (callGroup ++ "." ++ callName) params filters res

/-! ## Claims -/

/-- State of a client that has just completed a successful request-token
exchange yielding the pair ("RT", "RS"). -/
def clientAfterRequestToken : UROAuthState :=
  (getRequestTokenStep initialState (.ok "RT" "RS")).2

/-- C1: on a successful access-token exchange delivering ("AT", "AS"), the
code stores the fresh pair into `this.accessToken` but resolves the promise
with `this.token`, a field no code ever assigns — so the promise resolves
`undefined`, not the fresh access pair the claim (and the method's own
JSDoc, which promises a Token) describes. -/
theorem getAccessToken_resolves_never_assigned_field :
    (getAccessTokenStep clientAfterRequestToken .omitted (.ok "AT" "AS")).1 = .resolved none ∧
    (getAccessTokenStep clientAfterRequestToken .omitted (.ok "AT" "AS")).2.accessToken =
      TokenSlot.pair "AT" "AS" ∧
    (Settle.resolved none : Settle (Option TokenSlot) JsError) ≠
      Settle.resolved (some (TokenSlot.pair "AT" "AS")) := by
  refine ⟨rfl, rfl, ?_⟩
  decide

/-- C2 counterexample: `multipleQueries()` with zero query arguments is not
rejected and does perform the send — from the freshly constructed state it
builds the POST with body field `request = "[]"`, and on a successful
transport response it resolves. -/
theorem multipleQueries_empty_batch_counterexample :
    (multipleQueriesStep initialState [] (.ok "\x7b\x7d")).1 = .resolved (Json.obj []) ∧
    multipleQueriesRequest initialState [] =
      ⟨API_URL, none, none, [("request", "[]")], "application/x-www-form-urlencoded"⟩ :=
  ⟨rfl, rfl⟩

/-- C2 amended: the empty batch is not rejected — `multipleQueries()` with
zero queries builds and sends one POST whose single body field is
`request = "[]"`, signed with whatever access token is stored, and handles
the transport response like any other batch. -/
theorem multipleQueries_empty_batch_sends (st : UROAuthState) :
    multipleQueriesRequest st [] =
      ⟨API_URL, st.accessToken.token, st.accessToken.secret, [("request", "[]")],
        "application/x-www-form-urlencoded"⟩ ∧
    (multipleQueriesStep st [] (.ok "\x7b\x7d")).1 = .resolved (Json.obj []) :=
  ⟨rfl, rfl⟩

/-- Concrete well-formed JSON object response lacking the key "a". -/
def c3body : String := "\x7b\"b\":\x7b\x7d\x7d"

/-- C3 counterexample: `query "a"` on the well-formed object response
`c3body`, which lacks the key "a", resolves with `undefined` (`none`) — a
silent default, not a MissingResultError (no such error exists in the
code). -/
theorem query_missing_key_counterexample :
    (queryStep initialState "a" none none (.ok c3body)).1 = .resolved none :=
  rfl

/-- C3 amended: for every call name and every well-formed JSON-object
response lacking that key, `query` resolves with `undefined` (`none`); no
error of any kind is raised for the absent key. -/
theorem query_missing_key_resolves_undefined (st : UROAuthState) (c : String)
    (p : Option (List (String × Json))) (f : Option QueryFilters) (body : String)
    (fs : List (String × Json)) (hparse : JSONparse body = .ok (Json.obj fs))
    (hmiss : fs.find? (fun kv => kv.1 == c) = none) :
    (queryStep st c p f (.ok body)).1 = .resolved none := by
  simp only [queryStep, multipleQueriesStep, multipleQueriesCallback, hparse, settleOfCallback,
    Json.index, hmiss, Option.map_none']

/-- Witness for the amended C3 at the concrete response `c3body`. -/
theorem query_missing_key_resolves_undefined_witness :
    JSONparse c3body = .ok (Json.obj [("b", Json.obj [])]) ∧
    ([("b", Json.obj [])].find? (fun kv => kv.1 == "a") = none) ∧
    (queryStep initialState "a" none none (.ok c3body)).1 = .resolved none :=
  ⟨rfl, rfl,
    query_missing_key_resolves_undefined initialState "a" none none c3body
      [("b", Json.obj [])] rfl rfl⟩

/-- C4 counterexample: from the freshly constructed state, in which no access
token was ever set, a batch query does not fail with any authentication
error — the POST is sent with `undefined` oauth token and secret, and on a
successful transport response the promise resolves. -/
theorem multipleQueries_unauthenticated_counterexample :
    (multipleQueriesStep initialState [⟨"misc.ping", none, none, none⟩] (.ok "\x7b\x7d")).1 =
      .resolved (Json.obj []) ∧
    (multipleQueriesRequest initialState [⟨"misc.ping", none, none, none⟩]).oauthToken = none ∧
    (multipleQueriesRequest initialState [⟨"misc.ping", none, none, none⟩]).oauthSecret = none :=
  ⟨rfl, rfl, rfl⟩

/-- C4 amended: `multipleQueries` performs no token-state check at all — with
no access token set it still builds the POST, signing with `undefined` token
and secret, and the promise outcome is identical to that of a fully
authenticated client given the same transport response. -/
theorem multipleQueries_no_auth_check (qs : List QuerySpec) (res : TransportResult) :
    (multipleQueriesRequest initialState qs).oauthToken = none ∧
    (multipleQueriesRequest initialState qs).oauthSecret = none ∧
    (multipleQueriesStep initialState qs res).1 =
      (multipleQueriesStep ⟨TokenSlot.pair "RT" "RS", TokenSlot.pair "AT" "AS", none⟩ qs res).1 :=
  ⟨rfl, rfl, rfl⟩

/-- C5 counterexample: on the response body "not json", `multipleQueries`
does not reject its promise with any error — the JSON.parse exception is
thrown inside the transport callback, outside the promise's error channel,
and the promise never settles. -/
theorem multipleQueries_invalid_json_counterexample :
    (multipleQueriesStep initialState [⟨"misc.ping", none, none, none⟩] (.ok "not json")).1 =
      .thrown .syntaxError :=
  rfl

/-- C5 amended: on a transport-level failure the promise rejects with the
transport's own error object passed through unchanged (no typed
TransportError exists); on a response body that is not valid JSON the
JSON.parse SyntaxError is thrown inside the transport callback outside the
rejection channel, so the promise never settles (no ProtocolError
rejection). -/
theorem multipleQueries_error_channels (st : UROAuthState) (qs : List QuerySpec)
    (info body : String) (e : JsError) (hbad : JSONparse body = .error e) :
    (multipleQueriesStep st qs (.err info)).1 = .rejected (.transportError info) ∧
    (multipleQueriesStep st qs (.ok body)).1 = .thrown e := by
  refine ⟨rfl, ?_⟩
  simp only [multipleQueriesStep, multipleQueriesCallback, hbad, settleOfCallback]

/-- Witness for the amended C5 at the concrete body "not json" and transport
error "boom". -/
theorem multipleQueries_error_channels_witness :
    JSONparse "not json" = .error .syntaxError ∧
    ((multipleQueriesStep initialState [⟨"misc.ping", none, none, none⟩] (.err "boom")).1 =
       .rejected (.transportError "boom") ∧
     (multipleQueriesStep initialState [⟨"misc.ping", none, none, none⟩] (.ok "not json")).1 =
       .thrown .syntaxError) :=
  ⟨rfl, multipleQueries_error_channels initialState [⟨"misc.ping", none, none, none⟩]
    "boom" "not json" JsError.syntaxError rfl⟩

/-- C6: for every non-empty argument list, `multipleQueries` sends exactly
one POST to the API URL with content type application/x-www-form-urlencoded
and a single body field `request` holding the JSON serialization of the query
array; the i-th element of that array is the object with keys call, params,
contextFilter, itemsFilter derived from the i-th input, params defaulting to
the empty object and both filters to the empty array, in input order. -/
theorem multipleQueries_wire_encoding (st : UROAuthState) (qs : List QuerySpec)
    (hne : qs ≠ []) :
    (multipleQueriesRequest st qs).body =
      [("request", Json.stringify (Json.arr (queriesToDo qs)))] ∧
    (multipleQueriesRequest st qs).contentType = "application/x-www-form-urlencoded" ∧
    (multipleQueriesRequest st qs).url = API_URL ∧
    ∀ i : Nat, (queriesToDo qs)[i]? = (qs[i]?).map (fun q =>
      Json.obj [("call", Json.str q.call),
                ("params", Json.obj (q.params.getD [])),
                ("contextFilter", Json.arr ((q.contextFilter.getD []).map Json.str)),
                ("itemsFilter", Json.arr ((q.itemsFilter.getD []).map Json.str))]) := by
  refine ⟨rfl, rfl, rfl, fun i => ?_⟩
  simp only [queriesToDo, List.getElem?_map]
  rfl

/-- Witness for C6 at a concrete one-element batch. -/
theorem multipleQueries_wire_encoding_witness :
    (([⟨"a", none, none, none⟩] : List QuerySpec) ≠ []) ∧
    ((multipleQueriesRequest initialState [⟨"a", none, none, none⟩]).body =
       [("request", Json.stringify (Json.arr (queriesToDo [⟨"a", none, none, none⟩])))] ∧
     (multipleQueriesRequest initialState [⟨"a", none, none, none⟩]).contentType =
       "application/x-www-form-urlencoded" ∧
     (multipleQueriesRequest initialState [⟨"a", none, none, none⟩]).url = API_URL ∧
     ∀ i : Nat, (queriesToDo [⟨"a", none, none, none⟩])[i]? =
       (([⟨"a", none, none, none⟩] : List QuerySpec)[i]?).map (fun q =>
         Json.obj [("call", Json.str q.call),
                   ("params", Json.obj (q.params.getD [])),
                   ("contextFilter", Json.arr ((q.contextFilter.getD []).map Json.str)),
                   ("itemsFilter", Json.arr ((q.itemsFilter.getD []).map Json.str))])) :=
  ⟨List.cons_ne_nil _ _,
   multipleQueries_wire_encoding initialState [⟨"a", none, none, none⟩] (List.cons_ne_nil _ _)⟩

/-- C7: with a stored request token, `getAuthorizeUrl` returns the fixed
authorize base URL with `oauth_token` appended and, exactly when the callback
URL is non-empty, `oauth_callback` appended after it, both values
query-encoded; in particular token "RT" with callback "https://cb/" yields
the authorize base followed by
"?oauth_token=RT&oauth_callback=https%3A%2F%2Fcb%2F". -/
theorem getAuthorizeUrl_query_params :
    (∀ (tok sec cb : String) (acc : TokenSlot) (tf : Option TokenSlot),
      getAuthorizeUrl ⟨TokenSlot.pair tok sec, acc, tf⟩ cb =
        AUTHORIZE_URL ++ "?" ++
          (if cb = "" then "oauth_token=" ++ formUrlEncode tok
           else "oauth_token=" ++ formUrlEncode tok ++ "&" ++
             ("oauth_callback=" ++ formUrlEncode cb))) ∧
    getAuthorizeUrl ⟨TokenSlot.pair "RT" "RS", TokenSlot.empty, none⟩ "https://cb/" =
      "https://www.urban-rivals.com/api/auth/authorize.php?oauth_token=RT&oauth_callback=https%3A%2F%2Fcb%2F" := by
  constructor
  · intro tok sec cb acc tf
    by_cases h : cb = ""
    · subst h
      rfl
    · simp only [getAuthorizeUrl, if_neg h]
      rfl
  · rfl

/-- C8: the proxy client's two-level member access followed by invocation is
the bound `query` on the dotted call name — it builds the same POST and
produces the same outcome and state as the explicit
`query (group ++ "." ++ method)` invocation, for all parameters, filters and
transport results. -/
theorem proxyClient_equiv_query (st : UROAuthState) (g m : String)
    (p : Option (List (String × Json))) (f : Option QueryFilters) (res : TransportResult) :
    proxyClientCallRequest st g m p f = queryRequest st (g ++ "." ++ m) p f ∧
    proxyClientCallStep st g m p f res = queryStep st (g ++ "." ++ m) p f res :=
  ⟨rfl, rfl⟩

/-- C9: `multipleQueries` and `query` assign no instance field — whatever the
transport result (success, transport error, or parse failure), the whole
state, in particular `this.requestToken` and `this.accessToken`, is exactly
what it was before the call. -/
theorem batch_queries_preserve_tokens (st : UROAuthState) (qs : List QuerySpec)
    (res : TransportResult) (c : String) (p : Option (List (String × Json)))
    (f : Option QueryFilters) :
    (multipleQueriesStep st qs res).2 = st ∧ (queryStep st c p f res).2 = st := by
  refine ⟨rfl, ?_⟩
  cases res with
  | err info => rfl
  | ok body =>
    rcases hj : JSONparse body with e | v
    · simp only [queryStep, multipleQueriesStep, multipleQueriesCallback, hj, settleOfCallback]
    · simp only [queryStep, multipleQueriesStep, multipleQueriesCallback, hj, settleOfCallback]

/-- C10: which pair `getAccessToken` hands to the underlying exchange: an
argument object carrying an own `requestToken` property is unwrapped to that
property's token and secret (the object's own token/secret fields are
ignored); an object without that property is used directly; with the
argument omitted the stored `this.requestToken` is used. -/
theorem getAccessToken_request_token_selection (st : UROAuthState) (own inner : TokenSlot) :
    getAccessTokenCredentials st (.obj own (some inner)) = (inner.token, inner.secret) ∧
    getAccessTokenCredentials st (.obj own none) = (own.token, own.secret) ∧
    getAccessTokenCredentials st .omitted = (st.requestToken.token, st.requestToken.secret) :=
  ⟨rfl, rfl, rfl⟩
